import Mathlib

/-!
Verification model of the solar-challenge data pipeline: the `DataCleaner`
class (`src/utils/data_cleaner.py`), the `SolarMetrics` engine and its free
functions (`src/analysis/solar_metrics.py`), the `StatisticalAnalyzer`
correlation analysis (`src/analysis/statistical_tests.py`), and the
per-country statistics document builder (`src/scripts/generate_dashboard_data.py`).

Modelling conventions:
- A table cell is `Option Rat`: `none` stands for a non-finite float
  (NaN, and the unreachable-in-scope infinities), `some q` for a finite value.
  Exact float rounding is immaterial to the claims at issue; what matters is
  where pandas/numpy produce NaN and how NaN propagates through comparisons
  (every comparison against NaN is False) and arithmetic (NaN poisons).
- A DataFrame is a list of named columns of equal length; masks and indices
  are positional, matching the default RangeIndex of the loaded tables.
- Python exceptions are modelled with `Except String`.
- `numpy.sqrt` (used only inside `pandas.Series.std`) is kept as an explicit
  function parameter `sq : Rat → Rat`; theorems that depend on its behaviour
  assume only the ambient fact `sq 0 = 0`.
-/

namespace Solar

/-- A table cell: `none` models a pandas/numpy NaN, `some q` a finite value. -/
abbrev Val := Option ℚ

/-- Drop the missing entries of a column (pandas `dropna` on a Series). -/
def dropNone (xs : List Val) : List ℚ := xs.filterMap id

/-- NaN-propagating binary arithmetic on cells. -/
def optBin (f : ℚ → ℚ → ℚ) : Val → Val → Val
  | some a, some b => some (f a b)
  | _, _ => none

/-- Cellwise subtraction with NaN propagation. -/
def optSub (a b : Val) : Val := optBin (fun x y => x - y) a b

/-- Cellwise addition with NaN propagation. -/
def optAdd (a b : Val) : Val := optBin (fun x y => x + y) a b

/-- Cellwise multiplication with NaN propagation. -/
def optMul (a b : Val) : Val := optBin (fun x y => x * y) a b

/-- Cellwise division. Division of a finite value by zero yields a non-finite
float (inf or NaN) in numpy; both are modelled by `none`. No claim in scope
reaches this case, as the sources guard their divisors. -/
def optDiv : Val → Val → Val
  | some a, some b => if b = 0 then none else some (a / b)
  | _, _ => none

/-- Cellwise absolute value with NaN propagation. -/
def optAbs (a : Val) : Val := a.map (fun x => |x|)

/-- Comparison `x > t` against a scalar: any comparison with NaN is False. -/
def optGtQ (x : Val) (t : ℚ) : Bool :=
  match x with
  | some v => decide (t < v)
  | none => false

/-- Comparison `x < t` against a scalar: any comparison with NaN is False. -/
def optLtQ (x : Val) (t : ℚ) : Bool :=
  match x with
  | some v => decide (v < t)
  | none => false

/-- Cell-against-cell `<`: False whenever either side is NaN. -/
def optLtV (x y : Val) : Bool :=
  match x, y with
  | some a, some b => decide (a < b)
  | _, _ => false

/-- Cell-against-cell `>`: False whenever either side is NaN. -/
def optGtV (x y : Val) : Bool :=
  match x, y with
  | some a, some b => decide (b < a)
  | _, _ => false

/-- Arithmetic mean of a list of finite values. -/
def meanQ (v : List ℚ) : ℚ := v.sum / v.length

/-- Series mean (pandas `mean`, skipna): NaN when no finite value remains. -/
def pmean (xs : List Val) : Val :=
  let v := dropNone xs
  if v.length = 0 then none else some (meanQ v)

/-- Insert into an ascending list, keeping it ascending. -/
def insertLe {α : Type} [LinearOrder α] (x : α) : List α → List α
  | [] => [x]
  | y :: ys => if x ≤ y then x :: y :: ys else y :: insertLe x ys

/-- Ascending sort (insertion sort; pandas/numpy sort values ascending and
only the resulting order matters to the statistics in scope). -/
def sortLe {α : Type} [LinearOrder α] (v : List α) : List α := v.foldr insertLe []

/-- Ascending sort of finite values. -/
def sortQ (v : List ℚ) : List ℚ := sortLe v

/-- Linear-interpolation quantile of an ascending list (numpy/pandas default
method): position `h = q*(n-1)`, result `v[⌊h⌋] + (h-⌊h⌋)*(v[⌊h⌋+1]-v[⌊h⌋])`.
NaN on an empty list. -/
def pquantileSorted (v : List ℚ) (q : ℚ) : Val :=
  if v.length = 0 then none
  else
    let h : ℚ := q * ((v.length : ℚ) - 1)
    let i : ℕ := h.floor.toNat
    let lo := v.getD i 0
    let hi := v.getD (min (i + 1) (v.length - 1)) 0
    some (lo + (h - (i : ℚ)) * (hi - lo))

/-- Series quantile (pandas `quantile`, skipna, linear interpolation). -/
def pquantile (xs : List Val) (q : ℚ) : Val :=
  pquantileSorted (sortQ (dropNone xs)) q

/-- Series median (pandas `median` = the 0.5 quantile, skipna). -/
def pmedian (xs : List Val) : Val := pquantile xs (1/2)

/-- Sample variance with `ddof=1` (what pandas `std` squares): NaN when fewer
than two finite values remain. -/
def sampleVar (v : List ℚ) : Val :=
  if v.length < 2 then none
  else some ((v.map (fun x => (x - meanQ v) ^ 2)).sum / ((v.length : ℚ) - 1))

/-- Series standard deviation (pandas `std`, ddof=1, skipna), with the square
root kept as the explicit parameter `sq`. -/
def pstd (sq : ℚ → ℚ) (xs : List Val) : Val :=
  (sampleVar (dropNone xs)).map sq

/-- Series minimum (pandas `min`, skipna): NaN when no finite value remains. -/
def pminV (xs : List Val) : Val :=
  match dropNone xs with
  | [] => none
  | x :: rest => some (rest.foldl min x)

/-- Series maximum (pandas `max`, skipna): NaN when no finite value remains. -/
def pmaxV (xs : List Val) : Val :=
  match dropNone xs with
  | [] => none
  | x :: rest => some (rest.foldl max x)

/-- A DataFrame: named columns of equal length over a default RangeIndex. -/
structure DF where
  cols : List (String × List Val)
deriving DecidableEq

/-- Column membership test (`column in df.columns`). -/
def DF.hasCol (df : DF) (c : String) : Bool :=
  df.cols.any (fun p => p.1 = c)

/-- Column access `df[c]` (first column with that name; empty if absent —
callers in scope check `hasCol` first, as the sources do). -/
def DF.getCol (df : DF) (c : String) : List Val :=
  match df.cols.find? (fun p => p.1 = c) with
  | some p => p.2
  | none => []

/-- Column assignment `df[c] = vs`. -/
def DF.setCol (df : DF) (c : String) (vs : List Val) : DF :=
  ⟨df.cols.map (fun p => if p.1 = c then (p.1, vs) else p)⟩

/-- Number of rows `len(df)`. -/
def DF.nrows (df : DF) : ℕ :=
  match df.cols with
  | [] => 0
  | p :: _ => p.2.length

/-- Keep the rows of one column selected by a Boolean mask. -/
def maskKeep (keep : List Bool) (vs : List Val) : List Val :=
  (vs.zip keep).filterMap (fun p => if p.2 then some p.1 else none)

/-- Keep the rows of the whole table selected by a Boolean mask. -/
def DF.filterRows (df : DF) (keep : List Bool) : DF :=
  ⟨df.cols.map (fun p => (p.1, maskKeep keep p.2))⟩

/-- Replace the masked entries of a column by a fixed cell value
(`df.loc[mask, c] = v`). -/
def setWhere (vs : List Val) (mask : List Bool) (v : Val) : List Val :=
  (vs.zip mask).map (fun p => if p.2 then v else p.1)

/-- Clamp a cell to optional bounds (`Series.clip`): a NaN bound imposes no
constraint, a NaN cell stays NaN. -/
def clipVal (lo hi x : Val) : Val :=
  match x with
  | none => none
  | some v =>
    let v1 := match lo with | some l => max l v | none => v
    let v2 := match hi with | some h => min h v1 | none => v1
    some v2

/-- Forward fill: each NaN takes the nearest earlier finite value; leading
NaNs stay NaN (`Series.fillna(method=ffill)`). -/
def ffillAux : Val → List Val → List Val
  | _, [] => []
  | last, x :: xs =>
    match x with
    | some v => some v :: ffillAux (some v) xs
    | none => last :: ffillAux last xs

/-- Forward fill from no prior value. -/
def ffill (xs : List Val) : List Val := ffillAux none xs

/-- Backward fill: each NaN takes the nearest later finite value; trailing
NaNs stay NaN (`Series.fillna(method=bfill)`). -/
def bfill (xs : List Val) : List Val := (ffill xs.reverse).reverse

/-- Position and value of the last finite entry strictly before index `i`. -/
def lastSomeBefore (xs : List Val) (i : ℕ) : Option (ℕ × ℚ) :=
  ((xs.take i).enum.filterMap (fun p => p.2.map (fun v => (p.1, v)))).getLast?

/-- Position and value of the first finite entry at index `i` or later. -/
def firstSomeFrom (xs : List Val) (i : ℕ) : Option (ℕ × ℚ) :=
  ((xs.enum.drop i).filterMap (fun p => p.2.map (fun v => (p.1, v)))).head?

/-- Linear interpolation (`Series.interpolate(method=linear)`, default
direction): interior NaNs are interpolated between the neighbouring finite
values by index distance, leading NaNs stay NaN, trailing NaNs hold the last
finite value. -/
def interpolateLinear (xs : List Val) : List Val :=
  xs.enum.map (fun p =>
    match p.2 with
    | some v => some v
    | none =>
      match lastSomeBefore xs p.1 with
      | none => none
      | some q =>
        match firstSomeFrom xs p.1 with
        | some r =>
          some (q.2 + (r.2 - q.2) * ((p.1 : ℚ) - (q.1 : ℚ)) / ((r.1 : ℚ) - (q.1 : ℚ)))
        | none => some q.2)

/-- State of a `DataCleaner` instance: the owned table plus the append-only
log. Construction (`__init__`) copies the incoming table; object identity and
the resulting non-aliasing guarantee are modelled separately by the
`Store`/`CleanerRef` heap model below. -/
structure DataCleaner where
  df : DF
  cleaning_log : List String
deriving DecidableEq

instance {ε α : Type} [DecidableEq ε] [DecidableEq α] : DecidableEq (Except ε α) := fun x y =>
  match x, y with
  | Except.ok a, Except.ok b =>
    if h : a = b then isTrue (by rw [h]) else isFalse (by intro hh; cases hh; exact h rfl)
  | Except.error a, Except.error b =>
    if h : a = b then isTrue (by rw [h]) else isFalse (by intro hh; cases hh; exact h rfl)
  | Except.ok a, Except.error b => isFalse (by intro hh; cases hh)
  | Except.error a, Except.ok b => isFalse (by intro hh; cases hh)

/-- Core of `DataCleaner.detect_outliers_zscore` once the column is known to
exist: drop NaNs; an empty remainder or a zero standard deviation gives an
all-False mask; otherwise flag entries with `|x - mean| / std > threshold`
(NaN entries compare False). -/
def zscoreMask (sq : ℚ → ℚ) (data : List Val) (threshold : ℚ) : List Bool :=
  let dataClean := dropNone data
  if dataClean.length = 0 then data.map (fun _ => false)
  else
    let mean := meanQ dataClean
    let std := (sampleVar dataClean).map sq
    if std = some 0 then data.map (fun _ => false)
    else data.map (fun x => optGtQ (optDiv (optAbs (optSub x (some mean))) std) threshold)

/-- The method `DataCleaner.detect_outliers_zscore` (raises on a missing
column). -/
def detect_outliers_zscore (sq : ℚ → ℚ) (st : DataCleaner) (column : String)
    (threshold : ℚ) : Except String (List Bool) :=
  if st.df.hasCol column then Except.ok (zscoreMask sq (st.df.getCol column) threshold)
  else Except.error ("Column " ++ column ++ " not found in DataFrame")

/-- Core of `DataCleaner.detect_outliers_iqr`: flag entries outside
`[Q1 - multiplier*IQR, Q3 + multiplier*IQR]` (NaN entries and NaN bounds
compare False). -/
def iqrMask (data : List Val) (multiplier : ℚ) : List Bool :=
  let q1 := pquantile data (1/4)
  let q3 := pquantile data (3/4)
  let iqr := optSub q3 q1
  let lower := optSub q1 (optMul (some multiplier) iqr)
  let upper := optAdd q3 (optMul (some multiplier) iqr)
  data.map (fun x => optLtV x lower || optGtV x upper)

/-- The method `DataCleaner.detect_outliers_iqr` (raises on a missing
column). -/
def detect_outliers_iqr (st : DataCleaner) (column : String)
    (multiplier : ℚ) : Except String (List Bool) :=
  if st.df.hasCol column then Except.ok (iqrMask (st.df.getCol column) multiplier)
  else Except.error ("Column " ++ column ++ " not found in DataFrame")

/-- The method `DataCleaner.handle_outliers`: dispatch on the detection
method (unknown method raises), count the flagged entries, return early with
a no-op log entry when the count is zero, otherwise remediate per strategy
(unknown strategy raises only here) and log the action. -/
def handle_outliers (sq : ℚ → ℚ) (st : DataCleaner) (column : String)
    (method : String) (threshold : ℚ) (strategy : String) :
    Except String DataCleaner :=
  match
    (if method = "zscore" then detect_outliers_zscore sq st column threshold
     else if method = "iqr" then detect_outliers_iqr st column threshold
     else Except.error ("Unknown method " ++ method ++ ". Use zscore or iqr")) with
  | Except.error e => Except.error e
  | Except.ok outliers =>
    let numOutliers := outliers.count true
    if numOutliers = 0 then
      Except.ok { st with
        cleaning_log := st.cleaning_log ++ [column ++ ": No outliers detected"] }
    else
      let col := st.df.getCol column
      let step : Except String DF :=
        if strategy = "nan" then
          Except.ok (st.df.setCol column (setWhere col outliers none))
        else if strategy = "median" then
          Except.ok (st.df.setCol column (setWhere col outliers (pmedian col)))
        else if strategy = "mean" then
          Except.ok (st.df.setCol column (setWhere col outliers (pmean col)))
        else if strategy = "clip" then
          let bounds :=
            if method = "zscore" then
              let mean := pmean col
              let std := pstd sq col
              (optSub mean (optMul (some threshold) std),
               optAdd mean (optMul (some threshold) std))
            else
              let q1 := pquantile col (1/4)
              let q3 := pquantile col (3/4)
              let iqr := optSub q3 q1
              (optSub q1 (optMul (some threshold) iqr),
               optAdd q3 (optMul (some threshold) iqr))
          Except.ok (st.df.setCol column (col.map (clipVal bounds.1 bounds.2)))
        else Except.error ("Unknown strategy " ++ strategy)
      match step with
      | Except.error e => Except.error e
      | Except.ok newDf =>
        Except.ok
          { df := newDf
            cleaning_log := st.cleaning_log ++
              [column ++ ": Handled " ++ toString numOutliers ++ " outliers using " ++
                method ++ "/" ++ strategy] }

/-- The method `DataCleaner.handle_missing_values`: raises on a missing
column, returns early with a no-op log entry when the column has no NaNs,
otherwise applies the strategy (unknown strategy raises only here) and logs
the count handled. -/
def handle_missing_values (st : DataCleaner) (column : String)
    (strategy : String) : Except String DataCleaner :=
  if st.df.hasCol column then
    let col := st.df.getCol column
    let numMissing := col.countP (fun x => x.isNone)
    if numMissing = 0 then
      Except.ok { st with
        cleaning_log := st.cleaning_log ++ [column ++ ": No missing values"] }
    else
      let step : Except String DF :=
        if strategy = "drop" then
          Except.ok (st.df.filterRows (col.map (fun x => x.isSome)))
        else if strategy = "forward_fill" then
          Except.ok (st.df.setCol column (ffill col))
        else if strategy = "backward_fill" then
          Except.ok (st.df.setCol column (bfill col))
        else if strategy = "interpolate" then
          Except.ok (st.df.setCol column (interpolateLinear col))
        else if strategy = "mean" then
          Except.ok (st.df.setCol column (col.map (fun x => x.orElse (fun _ => pmean col))))
        else if strategy = "median" then
          Except.ok (st.df.setCol column (col.map (fun x => x.orElse (fun _ => pmedian col))))
        else if strategy = "zero" then
          Except.ok (st.df.setCol column (col.map (fun x => x.orElse (fun _ => some 0))))
        else Except.error ("Unknown strategy " ++ strategy)
      match step with
      | Except.error e => Except.error e
      | Except.ok newDf =>
        Except.ok
          { df := newDf
            cleaning_log := st.cleaning_log ++
              [column ++ ": Handled " ++ toString numMissing ++ " missing values using " ++
                strategy] }
  else Except.error ("Column " ++ column ++ " not found in DataFrame")

/-- One iteration of the `DataCleaner.clean_negative_values` loop: an absent
column is skipped with a warning; a present column with no negatives gets a
no-op log entry; otherwise the strategy is applied to the negative entries
(unknown strategy raises only here) and the per-column count is logged. -/
def cleanNegStep (strategy : String) (st : DataCleaner) (column : String) :
    Except String DataCleaner :=
  if st.df.hasCol column then
    let col := st.df.getCol column
    let negMask := col.map (fun x => optLtQ x 0)
    let numNeg := negMask.count true
    if numNeg = 0 then
      Except.ok { st with
        cleaning_log := st.cleaning_log ++ [column ++ ": No negative values"] }
    else
      let step : Except String (List Val) :=
        if strategy = "zero" then Except.ok (setWhere col negMask (some 0))
        else if strategy = "nan" then Except.ok (setWhere col negMask none)
        else if strategy = "abs" then
          Except.ok ((col.zip negMask).map (fun p => if p.2 then optAbs p.1 else p.1))
        else Except.error ("Unknown strategy " ++ strategy)
      match step with
      | Except.error e => Except.error e
      | Except.ok newCol =>
        Except.ok
          { df := st.df.setCol column newCol
            cleaning_log := st.cleaning_log ++
              [column ++ ": Cleaned " ++ toString numNeg ++ " negative values using " ++
                strategy] }
  else Except.ok st

/-- The per-column loop of `clean_negative_values`, left to right; a raised
`ValueError` propagates out of the loop. -/
def cleanNegLoop (strategy : String) : DataCleaner → List String → Except String DataCleaner
  | st, [] => Except.ok st
  | st, c :: cs =>
    match cleanNegStep strategy st c with
    | Except.ok st2 => cleanNegLoop strategy st2 cs
    | Except.error e => Except.error e

/-- The method `DataCleaner.clean_negative_values` over a list of columns
(the single-string overload of the source wraps the name into a singleton
list). -/
def clean_negative_values (st : DataCleaner) (columns : List String)
    (strategy : String) : Except String DataCleaner :=
  cleanNegLoop strategy st columns

/-- Index positions of the duplicate-subset columns. -/
def subsetIdxs (df : DF) (subset : Option (List String)) : List ℕ :=
  match subset with
  | none => List.range df.cols.length
  | some names => df.cols.enum.filterMap
      (fun p => if names.contains p.2.1 then some p.1 else none)

/-- Rows of the table (row-major view of the column-major store). -/
def DF.rows (df : DF) : List (List Val) :=
  (List.range df.nrows).map (fun i => df.cols.map (fun p => p.2.getD i none))

/-- Rebuild a table from a list of rows under the given column names. -/
def dfFromRows (names : List String) (rows : List (List Val)) : DF :=
  ⟨names.enum.map (fun p => (p.2, rows.map (fun r => r.getD p.1 none)))⟩

/-- Keep the first occurrence of each key, preserving order. -/
def keepFirstBy (key : List Val → List Val) (rows : List (List Val)) : List (List Val) :=
  (rows.foldl
    (fun acc r => if acc.2.contains (key r) then acc else (acc.1 ++ [r], acc.2 ++ [key r]))
    (([] : List (List Val)), ([] : List (List Val)))).1

/-- The method `DataCleaner.remove_duplicates`
(`df.drop_duplicates(subset, keep)`): rows equal on the subset columns are
duplicates; `keep=first`/`last` keeps one representative, any other value of
`keep` (the source passes Python `False`) drops every duplicated row. The
removed count is logged. -/
def remove_duplicates (st : DataCleaner) (subset : Option (List String))
    (keep : String) : DataCleaner :=
  let idxs := subsetIdxs st.df subset
  let key := fun (r : List Val) => idxs.map (fun i => r.getD i none)
  let rows := st.df.rows
  let kept :=
    if keep = "first" then keepFirstBy key rows
    else if keep = "last" then (keepFirstBy key rows.reverse).reverse
    else rows.filter (fun r => rows.countP (fun r2 => key r2 = key r) = 1)
  let newDf := dfFromRows (st.df.cols.map (fun p => p.1)) kept
  { df := newDf
    cleaning_log := st.cleaning_log ++
      ["Removed " ++ toString (rows.length - kept.length) ++ " duplicate rows"] }

/-!
Correlation analysis (`StatisticalAnalyzer.correlation_analysis`).

The scipy statistic functions (`pearsonr`, `spearmanr`, `kendalltau`) are
external library code; the embedding keeps the function selected by the
`method` dispatch as an explicit parameter
`corrFn : List Rat → List Rat → Val × Val` returning the (possibly NaN)
correlation coefficient and p-value. Everything the claims speak about —
matrix construction, symmetry, the diagonal, pairwise NaN-row removal, the
fewer-than-3-points guard, and the significance count — lives in the
repository code and is embedded below. The analyzer state is its
significance level `alpha` (default 0.05).
-/

/-- Pairwise deletion: keep the rows where both columns are finite. -/
def validPairs (xs ys : List Val) : List (ℚ × ℚ) :=
  (xs.zip ys).filterMap (fun p =>
    match p.1, p.2 with
    | some a, some b => some (a, b)
    | _, _ => none)

/-- The freshly computed `i < j` entry of the correlation loop: NaN when
fewer than 3 valid pairs remain, otherwise the library statistic. -/
def corrCompute (corrFn : List ℚ → List ℚ → Val × Val)
    (colsData : List (List Val)) (i j : ℕ) : Val × Val :=
  let ps := validPairs (colsData.getD i []) (colsData.getD j [])
  if ps.length < 3 then (none, none)
  else corrFn (ps.map (fun p => p.1)) (ps.map (fun p => p.2))

/-- Entry `(i, j)` of both matrices as the double loop leaves it: diagonal
`(1.0, 0.0)`; an `i > j` entry copies the already-computed `(j, i)` entry;
an `i < j` entry is freshly computed. -/
def corrEntry (corrFn : List ℚ → List ℚ → Val × Val)
    (colsData : List (List Val)) (i j : ℕ) : Val × Val :=
  if i = j then (some 1, some 0)
  else if j < i then corrCompute corrFn colsData j i
  else corrCompute corrFn colsData i j

/-- Significance of one p-value cell: `p < alpha`, False for NaN. -/
def pSig (p : Val) (alpha : ℚ) : Bool :=
  match p with
  | some q => decide (q < alpha)
  | none => false

/-- Result dictionary of `correlation_analysis`. -/
structure CorrResult where
  correlation : List (List Val)
  p_values : List (List Val)
  method : String
  significant_at_alpha : ℕ
deriving DecidableEq

/-- The method `StatisticalAnalyzer.correlation_analysis` on the selected
columns: build both matrices, then count the cells of the p-value matrix
below `alpha` and halve the count (`(p_df < self.alpha).sum().sum() // 2`,
integer division). -/
def correlation_analysis (corrFn : List ℚ → List ℚ → Val × Val) (alpha : ℚ)
    (method : String) (colsData : List (List Val)) : CorrResult :=
  let n := colsData.length
  let pM := (List.range n).map (fun i =>
    (List.range n).map (fun j => (corrEntry corrFn colsData i j).2))
  { correlation := (List.range n).map (fun i =>
      (List.range n).map (fun j => (corrEntry corrFn colsData i j).1))
    p_values := pM
    method := method
    significant_at_alpha :=
      ((pM.map (fun row => row.countP (fun p => pSig p alpha))).sum) / 2 }

/-- Column selection `df[columns]` feeding `correlation_analysis` (the
`columns=None` branch selects every numeric column name instead). -/
def selectCols (df : DF) (columns : List String) : List (List Val) :=
  columns.map df.getCol

/-- Modelled from the spec: the count described by the sentence "a count of
significant off-diagonal pairs (counting each unordered pair once)" — the
number of pairs `i < j` whose p-value entry is below alpha. This definition
follows the spec wording and is compared against the code's
`significant_at_alpha`. -/
def specSignificantPairs (corrFn : List ℚ → List ℚ → Val × Val) (alpha : ℚ)
    (colsData : List (List Val)) : ℕ :=
  ((List.range colsData.length).map (fun j =>
    (List.range j).countP (fun i => pSig (corrEntry corrFn colsData i j).2 alpha))).sum

/-!
Solar metrics (`SolarMetrics` and the free functions of
`src/analysis/solar_metrics.py`).

Timestamps are modelled as rational seconds on the POSIX line; the calendar
date extracted by `dt.date` is the floor-day. The claims in scope quantify
over tables whose timestamp column parses, so the row list below carries a
plain rational timestamp next to the (possibly NaN) irradiance cell.
-/

/-- Calendar date of a timestamp (`pd.to_datetime(...).dt.date`), as the
day number since the epoch. -/
def dateOf (t : ℚ) : ℤ := (t / 86400).floor

/-- Consecutive timestamp deltas (`Series.diff` without the leading NaT). -/
def consecDiffs (ts : List ℚ) : List ℚ :=
  List.zipWith (fun a b => a - b) (ts.drop 1) ts

/-- Median of a list of finite values (callers guarantee nonemptiness, as the
`len > 1` guard of the source does). -/
def medianQ (v : List ℚ) : ℚ :=
  (pquantileSorted (sortQ v) (1/2)).getD 0

/-- The uniform sampling interval of `calculate_daily_energy`, in hours: the
median consecutive timestamp delta over the whole table when it has more
than one row, else 1/60 hour. -/
def dailyInterval (rows : List (ℚ × Val)) : ℚ :=
  if rows.length > 1 then
    medianQ (consecDiffs (rows.map (fun r => r.1))) / 3600
  else 1/60

/-- Ascending list of the distinct dates of the table (`groupby` sorts its
keys). -/
def groupDates (rows : List (ℚ × Val)) : List ℤ :=
  sortLe ((rows.map (fun r => dateOf r.1)).dedup)

/-- The method `SolarMetrics.calculate_daily_energy`: group rows by calendar
date and return, per day, the NaN-skipping sum of the day's irradiance
samples times the (single, uniform) interval in hours, divided by 1000. -/
def calculate_daily_energy (rows : List (ℚ × Val)) : List (ℤ × ℚ) :=
  let interval_hours := dailyInterval rows
  (groupDates rows).map (fun d =>
    (d, (dropNone ((rows.filter (fun r => dateOf r.1 = d)).map (fun r => r.2))).sum *
      interval_hours / 1000))

/-- Modelled from the spec: "daily energy = sum of irradiance samples for
that day × interval-in-hours / 1000" — the per-day irradiance sum, written
independently of the grouping machinery (a NaN sample contributes 0, as the
NaN-skipping pandas sum does). -/
def daySum : List (ℚ × Val) → ℤ → ℚ
  | [], _ => 0
  | r :: rs, d => (if dateOf r.1 = d then r.2.getD 0 else 0) + daySum rs d

/-- Timestamp/irradiance row list of a table
(`df[[time_column, irradiance_column]]` with parsed timestamps; the claims
in scope assume the timestamp column parses). -/
def dfTimeIrr (df : DF) (tcol icol : String) : List (ℚ × Val) :=
  ((df.getCol tcol).zip (df.getCol icol)).filterMap
    (fun p => p.1.map (fun tq => (tq, p.2)))

/-- The method `SolarMetrics.calculate_clearness_index` on the GHI column:
`GHI / solar_constant` clipped to `[0, 1]`, NaN entries staying NaN. -/
def clearnessIndexCol (ghi : List Val) (solar_constant : ℚ) : List Val :=
  ghi.map (fun x => x.map (fun v => min 1 (max 0 (v / solar_constant))))

/-- The method `SolarMetrics.identify_daylight_hours`: True where GHI
exceeds the threshold (NaN compares False). -/
def daylightMask (df : DF) (ghi_threshold : ℚ) : List Bool :=
  (df.getCol "GHI").map (fun x => optGtQ x ghi_threshold)

/-- The dictionary built by `SolarMetrics.assess_solar_potential`. The three
ambient-temperature entries are added only when the table has a `Tamb`
column. -/
structure SolarAssessment where
  mean_ghi : Val
  max_ghi : Val
  mean_dni : Val
  mean_dhi : Val
  mean_clearness_index : Val
  daylight_hours_percent : Val
  mean_daily_energy_kwh_m2 : Val
  annual_ghi_kwh_m2 : Val
  peak_sun_hours : Val
  ambient_temp : Option (Val × Val × Val)
deriving DecidableEq

/-- The method `SolarMetrics.assess_solar_potential`: means and maxima of
the irradiance columns, mean clearness index, daylight percentage, and the
mean and `sum * 365 / count` annualization of the daily-energy series.
Every `float(...)` leaf keeps whatever NaN pandas produced; an empty
daily-energy series or an empty table makes the derived ratios NaN. -/
def assess_solar_potential (df : DF) : SolarAssessment :=
  let ghi := df.getCol "GHI"
  let de := (calculate_daily_energy (dfTimeIrr df "Timestamp" "GHI")).map (fun p => p.2)
  let dayCount := (daylightMask df 10).count true
  { mean_ghi := pmean ghi
    max_ghi := pmaxV ghi
    mean_dni := pmean (df.getCol "DNI")
    mean_dhi := pmean (df.getCol "DHI")
    mean_clearness_index := pmean (clearnessIndexCol ghi 1367)
    daylight_hours_percent :=
      if df.nrows = 0 then none else some ((dayCount : ℚ) / (df.nrows : ℚ) * 100)
    mean_daily_energy_kwh_m2 :=
      if de.length = 0 then none else some (de.sum / (de.length : ℚ))
    annual_ghi_kwh_m2 :=
      if de.length = 0 then none else some (de.sum * 365 / (de.length : ℚ))
    peak_sun_hours :=
      if de.length = 0 then none else some (de.sum / (de.length : ℚ))
    ambient_temp :=
      if df.hasCol "Tamb" then
        some (pmean (df.getCol "Tamb"), pmaxV (df.getCol "Tamb"), pminV (df.getCol "Tamb"))
      else none }

/-- Result of the free function `calculate_cleaning_impact`: either one of
the two structured error dictionaries or the statistics dictionary. The
percent improvement is NaN-valued when the before-mean is zero (numpy float
division, non-finite). -/
inductive ImpactResult where
  | err (msg : String)
  | stats (cleaning_events : ℕ) (mean_before mean_after : ℚ)
      (percent_improvement : Val) (events_analyzed : ℕ)
deriving DecidableEq

/-- Row positions of the cleaning events (`df[df[cleaning_column] == 1]`,
NaN never equal to 1; positions coincide with index labels on the default
RangeIndex). -/
def cleaningEvents (df : DF) (cleaning_column : String) : List ℕ :=
  (df.getCol cleaning_column).enum.filterMap
    (fun p => if p.2 = some 1 then some p.1 else none)

/-- The valid before/after mean pairs of the cleaning events: the mean over
`window_days * 1440` rows before (clamped at 0) and after (clamped at the
table end) each event, keeping only events where both means are finite (an
empty or all-NaN window gives a NaN mean). -/
def impactPairs (df : DF) (cleaning_column irradiance_column : String)
    (window_days : ℕ) : List (ℚ × ℚ) :=
  let irr := df.getCol irradiance_column
  (cleaningEvents df cleaning_column).filterMap (fun loc =>
    let beforeStart := loc - window_days * 1440
    let beforeData := pmean ((irr.drop beforeStart).take (loc - beforeStart))
    let afterData := pmean ((irr.drop loc).take (window_days * 1440))
    match beforeData, afterData with
    | some b, some a => some (b, a)
    | _, _ => none)

/-- The free function `calculate_cleaning_impact`: a read-only analysis that
returns the "No cleaning events found" dictionary when no row has the
cleaning indicator equal to 1, the "Insufficient data around cleaning
events" dictionary when events exist but no valid before/after pair can be
formed, and the statistics dictionary otherwise. It never writes to the
table (the embedding takes `df` by value and returns only the result). -/
def calculate_cleaning_impact (df : DF) (cleaning_column irradiance_column : String)
    (window_days : ℕ) : ImpactResult :=
  let events := cleaningEvents df cleaning_column
  if events.length = 0 then ImpactResult.err "No cleaning events found"
  else
    let pairs := impactPairs df cleaning_column irradiance_column window_days
    if pairs.length = 0 then ImpactResult.err "Insufficient data around cleaning events"
    else
      let mb := meanQ (pairs.map (fun p => p.1))
      let ma := meanQ (pairs.map (fun p => p.2))
      ImpactResult.stats events.length mb ma
        (if mb = 0 then none else some ((ma - mb) / mb * 100)) pairs.length

/-!
The per-country portion of the statistics document built by
`generate_statistics` (`src/scripts/generate_dashboard_data.py`, the
`country_stats` dictionary): record count, the seven-number summaries of the
irradiance columns, the five-number summaries of the meteorological columns,
and the `assess_solar_potential` section. Each leaf is stored through
`float(...)`, which preserves any NaN pandas produced. (The temporal-pattern
and correlation sections aggregate the same NaN-preserving statistics and
are not needed by the claims in scope.)
-/

/-- Seven-number summary leaf record of the `solar_irradiance` section. -/
structure ColStats7 where
  mean : Val
  median : Val
  std : Val
  min : Val
  max : Val
  q25 : Val
  q75 : Val
deriving DecidableEq

/-- Five-number summary leaf record of the `meteorological` section. -/
structure ColStats5 where
  mean : Val
  median : Val
  std : Val
  min : Val
  max : Val
deriving DecidableEq

/-- The `solar_irradiance` section: one summary per present irradiance
column. -/
def solarIrradianceStats (sq : ℚ → ℚ) (df : DF) : List (String × ColStats7) :=
  (["GHI", "DNI", "DHI"].filter df.hasCol).map (fun col =>
    let c := df.getCol col
    (col, ⟨pmean c, pmedian c, pstd sq c, pminV c, pmaxV c,
      pquantile c (1/4), pquantile c (3/4)⟩))

/-- The `meteorological` section: one summary per present covariate
column. -/
def meteorologicalStats (sq : ℚ → ℚ) (df : DF) : List (String × ColStats5) :=
  (["Tamb", "RH", "WS", "BP"].filter df.hasCol).map (fun col =>
    let c := df.getCol col
    (col, ⟨pmean c, pmedian c, pstd sq c, pminV c, pmaxV c⟩))

/-- One country's entry of the derived statistics document. -/
structure CountryStats where
  record_count : ℕ
  solar_irradiance : List (String × ColStats7)
  meteorological : List (String × ColStats5)
  solar_assessment : SolarAssessment
deriving DecidableEq

/-- The per-country statistics record built by one iteration of the
`generate_statistics` country loop. -/
def countryStats (sq : ℚ → ℚ) (df : DF) : CountryStats :=
  { record_count := df.nrows
    solar_irradiance := solarIrradianceStats sq df
    meteorological := meteorologicalStats sq df
    solar_assessment := assess_solar_potential df }

/-!
Heap model for the aliasing claim: pandas DataFrame objects live in a store,
and the caller and the `DataCleaner` instance hold references into it.
`DataCleaner.__init__` runs `self.df = df.copy()`, allocating a fresh object;
every subsequent cleaning method either mutates the object `self.df` points
at (`loc`/column assignments) or rebinds `self.df` to a freshly allocated
object (`dropna`, `drop_duplicates`). A raised `ValueError` propagates to
the caller; no caller in scope observes the instance afterwards, so the
post-raise state is modelled as the pre-call state (either way only the
instance's own object is ever written).
-/

/-- The heap of DataFrame objects. -/
structure Store where
  objs : List DF
deriving DecidableEq

/-- A `DataCleaner` instance: a reference to its owned table plus the log
(the log list is owned outright and needs no reference). -/
structure CleanerRef where
  dfRef : ℕ
  log : List String
deriving DecidableEq

/-- `DataCleaner.__init__`: copy the caller's table into a freshly
allocated object and point `self.df` at the copy. -/
def cleanerInit (s : Store) (callerRef : ℕ) : Store × CleanerRef :=
  (⟨s.objs ++ [s.objs.getD callerRef ⟨[]⟩]⟩, ⟨s.objs.length, []⟩)

/-- One cleaning-pipeline call on a `DataCleaner` instance. -/
inductive CleanOp where
  | hOut (column method : String) (threshold : ℚ) (strategy : String)
  | hMiss (column strategy : String)
  | cNeg (columns : List String) (strategy : String)
  | rDup (subset : Option (List String)) (keep : String)
deriving DecidableEq

/-- Value-level effect of one cleaning call on the instance state (the
post-raise state of a failing call is the pre-call state; see the section
comment). -/
def applyCleanOp (sq : ℚ → ℚ) (st : DataCleaner) : CleanOp → DataCleaner
  | CleanOp.hOut c m t strat =>
    match handle_outliers sq st c m t strat with
    | Except.ok st2 => st2
    | Except.error _ => st
  | CleanOp.hMiss c strat =>
    match handle_missing_values st c strat with
    | Except.ok st2 => st2
    | Except.error _ => st
  | CleanOp.cNeg cs strat =>
    match clean_negative_values st cs strat with
    | Except.ok st2 => st2
    | Except.error _ => st
  | CleanOp.rDup sub k => remove_duplicates st sub k

/-- Whether the call rebinds `self.df` to a freshly allocated object
(`self.df = ...` in the source) rather than writing through it. -/
def opRebinds : CleanOp → Bool
  | CleanOp.hMiss _ strat => strat = "drop"
  | CleanOp.rDup _ _ => true
  | _ => false

/-- One cleaning call against the heap: read the instance's object, compute
the new state, then either write it back in place or allocate a fresh object
and rebind the instance's reference. -/
def runCleanOp (sq : ℚ → ℚ) (sc : Store × CleanerRef) (op : CleanOp) :
    Store × CleanerRef :=
  let st := applyCleanOp sq ⟨sc.1.objs.getD sc.2.dfRef ⟨[]⟩, sc.2.log⟩ op
  if opRebinds op then
    (⟨sc.1.objs ++ [st.df]⟩, ⟨sc.1.objs.length, st.cleaning_log⟩)
  else
    (⟨sc.1.objs.set sc.2.dfRef st.df⟩, ⟨sc.2.dfRef, st.cleaning_log⟩)

/-- A whole cleaning pipeline against the heap. -/
def runCleanOps (sq : ℚ → ℚ) (sc : Store × CleanerRef) (ops : List CleanOp) :
    Store × CleanerRef :=
  ops.foldl (runCleanOp sq) sc

/-!
Concrete fixtures evaluated by the theorems below.
-/

/-- A cleaner over a table with one IQR outlier (and negative value) in GHI
and one missing value in RH. -/
def stW : DataCleaner :=
  ⟨⟨[("GHI", [some 0, some 0, some 0, some 0, some (-100)]),
     ("RH", [some 1, none, some 1, some 1, some 1])]⟩, []⟩

/-- A cleaner over a constant (zero-variance) column. -/
def stConst : DataCleaner := ⟨⟨[("GHI", [some 5, some 5])]⟩, []⟩

/-- One calendar day of 60 one-minute samples, all 600 W/m². -/
def minuteRows : List (ℚ × Val) :=
  (List.range 60).map (fun i => (((60 * i : ℕ) : ℚ), some (600 : ℚ)))

/-- Two short columns: every off-diagonal correlation pair has fewer than 3
valid points. -/
def dfAB : DF := ⟨[("A", [some 0, some 1]), ("B", [some 0, some 1])]⟩

/-- A table whose cleaning indicator is never 1. -/
def dfNoEvents : DF := ⟨[("Cleaning", [some 0, some 0]), ("ModA", [some 1, some 2])]⟩

/-- A table with one cleaning event at row 0: its before-window is empty, so
no valid before/after pair exists. -/
def dfOneEvent : DF := ⟨[("Cleaning", [some 1]), ("ModA", [some 5])]⟩

/-- A country table with a single row. -/
def dfSingleRow : DF :=
  ⟨[("Timestamp", [some 0]), ("GHI", [some 100]), ("DNI", [some 50]), ("DHI", [some 30])]⟩

/-- The spec scenario table `[{t:0,GHI:100},{t:1,GHI:-5},{t:2,GHI:50}]`. -/
def dfScenario : DF :=
  ⟨[("t", [some 0, some 1, some 2]), ("GHI", [some 100, some (-5), some 50])]⟩

/-!
Theorems settling the claims.
-/

unseal Rat.add Rat.mul Rat.inv Rat.sub in
/-- C1: the claim says the statistics document built by a generation run
contains only finite floats at its numeric leaves under every input,
including single-row columns. The code does not sanitize: on a country table
with a single row, the pandas sample standard deviation (ddof=1) of the GHI
column is NaN, and `generate_statistics` stores exactly that value at
`countries.<site>.solar_irradiance.GHI.std`, so a NaN leaf reaches the
document. -/
theorem c1_single_row_table_emits_nan_std_leaf :
    (countryStats (fun q => q) dfSingleRow).record_count = 1 ∧
    (countryStats (fun q => q) dfSingleRow).solar_irradiance.lookup "GHI" =
      some ⟨some 100, some 100, none, some 100, some 100, some 100, some 100⟩ := by
  decide

/-- C10: with the named column present but containing zero detected outliers
(resp. zero missing values), `handle_outliers` with a recognized method
(resp. `handle_missing_values`) returns successfully for an arbitrary
strategy string — the strategy name is validated only after the zero-count
early return — leaving the table unchanged and appending exactly the one
no-op log entry. -/
theorem c10_zero_count_skips_strategy_validation
    (sq : ℚ → ℚ) (st : DataCleaner) (column strategy : String) (threshold : ℚ)
    (hcol : st.df.hasCol column = true) :
    ((zscoreMask sq (st.df.getCol column) threshold).count true = 0 →
      handle_outliers sq st column "zscore" threshold strategy =
        Except.ok ⟨st.df, st.cleaning_log ++ [column ++ ": No outliers detected"]⟩) ∧
    ((iqrMask (st.df.getCol column) threshold).count true = 0 →
      handle_outliers sq st column "iqr" threshold strategy =
        Except.ok ⟨st.df, st.cleaning_log ++ [column ++ ": No outliers detected"]⟩) ∧
    ((st.df.getCol column).countP (fun x => x.isNone) = 0 →
      handle_missing_values st column strategy =
        Except.ok ⟨st.df, st.cleaning_log ++ [column ++ ": No missing values"]⟩) := by
  refine ⟨fun h => ?_, fun h => ?_, fun h => ?_⟩
  · simp [handle_outliers, detect_outliers_zscore, hcol, h]
  · simp [handle_outliers, detect_outliers_iqr, hcol, h]
  · simp [handle_missing_values, hcol, h]

unseal Rat.add Rat.mul Rat.inv Rat.sub in
/-- Witness for C10 at a concrete input: a constant column has zero Z-score
outliers and no missing values, so even the unrecognized strategy string
`bogus` does not raise. -/
theorem c10_witness :
    (handle_outliers (fun _ => 0) ⟨⟨[("GHI", [some 5, some 5])]⟩, []⟩ "GHI" "zscore" 3 "bogus" =
      Except.ok ⟨⟨[("GHI", [some 5, some 5])]⟩, ["GHI: No outliers detected"]⟩) ∧
    (handle_missing_values ⟨⟨[("GHI", [some 5, some 5])]⟩, []⟩ "GHI" "bogus" =
      Except.ok ⟨⟨[("GHI", [some 5, some 5])]⟩, ["GHI: No missing values"]⟩) :=
  ⟨((c10_zero_count_skips_strategy_validation (fun _ => 0)
      ⟨⟨[("GHI", [some 5, some 5])]⟩, []⟩ "GHI" "bogus" 3 (by decide)).1 (by decide)),
   ((c10_zero_count_skips_strategy_validation (fun _ => 0)
      ⟨⟨[("GHI", [some 5, some 5])]⟩, []⟩ "GHI" "bogus" 3 (by decide)).2.2 (by decide))⟩

/-- C3 counterexample: the claim says a strategy name outside the documented
set makes `handle_missing_values` fail immediately even when the column has
zero missing values; on a column with no missing values and the unrecognized
strategy `bogus`, the call succeeds with a no-op log entry instead. -/
theorem c3_counterexample :
    handle_missing_values ⟨⟨[("GHI", [some 1])]⟩, []⟩ "GHI" "bogus" =
      Except.ok ⟨⟨[("GHI", [some 1])]⟩, ["GHI: No missing values"]⟩ := by
  decide

unseal Rat.add Rat.mul Rat.inv Rat.sub in
/-- C4 counterexample: the claim says every call appends a log entry of the
form `<column>: Cleaned <n> negative values using zero` with `n` the
original negative count; on a column with zero negatives the code appends
`<column>: No negative values` instead of `GHI: Cleaned 0 negative values
using zero`. -/
theorem c4_counterexample :
    clean_negative_values ⟨⟨[("GHI", [some 1])]⟩, []⟩ ["GHI"] "zero" =
      Except.ok ⟨⟨[("GHI", [some 1])]⟩, ["GHI: No negative values"]⟩ ∧
    "GHI: No negative values" ≠ "GHI: Cleaned 0 negative values using zero" := by
  decide

/-- C8: on a table containing the cleaning-indicator and irradiance columns
in which no cell of the indicator column equals 1, `calculate_cleaning_impact`
returns the structured `No cleaning events found` result (no exception, and
the function only reads the table); and when events exist but no valid
before/after mean pair can be formed it returns the structured
`Insufficient data around cleaning events` result. -/
theorem c8_cleaning_impact_structured_errors
    (df : DF) (ccol icol : String) (w : ℕ) :
    ((∀ v ∈ df.getCol ccol, v ≠ some 1) →
      calculate_cleaning_impact df ccol icol w =
        ImpactResult.err "No cleaning events found") ∧
    (cleaningEvents df ccol ≠ [] → impactPairs df ccol icol w = [] →
      calculate_cleaning_impact df ccol icol w =
        ImpactResult.err "Insufficient data around cleaning events") := by
  constructor
  · intro h
    have hev : cleaningEvents df ccol = [] := by
      unfold cleaningEvents
      rw [List.filterMap_eq_nil_iff]
      intro p hp
      have hmem : p.2 ∈ df.getCol ccol :=
        List.getElem?_mem (List.mem_enum_iff_getElem?.mp hp)
      simp [h p.2 hmem]
    unfold calculate_cleaning_impact
    simp [hev]
  · intro hev hp
    unfold calculate_cleaning_impact
    have : (cleaningEvents df ccol).length ≠ 0 := by
      simpa [List.length_eq_zero] using hev
    simp [this, hp]

/-- C3 (amended): unknown-column and unknown-method usage errors fail
immediately regardless of data: a method name outside `zscore`/`iqr` makes
`handle_outliers` raise at dispatch, and a column absent from the table
makes `detect_outliers_zscore`, `detect_outliers_iqr`, `handle_outliers`
(with a recognized method) and `handle_missing_values` raise. An unknown
strategy name, however, raises only when the detected count is nonzero:
`handle_outliers` and `handle_missing_values` with a nonzero outlier or
missing count, and `clean_negative_values` on a present column with a
nonzero negative count, raise `Unknown strategy`; with a zero count the
strategy name is never inspected and the call succeeds with a no-op log
entry (shown here for `clean_negative_values`; the outlier and missing
cases are the subject of C10). -/
theorem c3_usage_errors_amended
    (sq : ℚ → ℚ) (st : DataCleaner) (column method strategy : String) (threshold : ℚ) :
    (method ≠ "zscore" → method ≠ "iqr" →
      handle_outliers sq st column method threshold strategy =
        Except.error ("Unknown method " ++ method ++ ". Use zscore or iqr")) ∧
    (st.df.hasCol column = false →
      detect_outliers_zscore sq st column threshold =
          Except.error ("Column " ++ column ++ " not found in DataFrame") ∧
      detect_outliers_iqr st column threshold =
          Except.error ("Column " ++ column ++ " not found in DataFrame") ∧
      handle_outliers sq st column "zscore" threshold strategy =
          Except.error ("Column " ++ column ++ " not found in DataFrame") ∧
      handle_outliers sq st column "iqr" threshold strategy =
          Except.error ("Column " ++ column ++ " not found in DataFrame") ∧
      handle_missing_values st column strategy =
          Except.error ("Column " ++ column ++ " not found in DataFrame")) ∧
    (st.df.hasCol column = true → strategy ≠ "nan" → strategy ≠ "median" →
      strategy ≠ "mean" → strategy ≠ "clip" →
      ((zscoreMask sq (st.df.getCol column) threshold).count true ≠ 0 →
        handle_outliers sq st column "zscore" threshold strategy =
          Except.error ("Unknown strategy " ++ strategy)) ∧
      ((iqrMask (st.df.getCol column) threshold).count true ≠ 0 →
        handle_outliers sq st column "iqr" threshold strategy =
          Except.error ("Unknown strategy " ++ strategy))) ∧
    (st.df.hasCol column = true → strategy ≠ "drop" → strategy ≠ "forward_fill" →
      strategy ≠ "backward_fill" → strategy ≠ "interpolate" → strategy ≠ "mean" →
      strategy ≠ "median" → strategy ≠ "zero" →
      (st.df.getCol column).countP (fun x => x.isNone) ≠ 0 →
      handle_missing_values st column strategy =
        Except.error ("Unknown strategy " ++ strategy)) ∧
    (st.df.hasCol column = true → strategy ≠ "zero" → strategy ≠ "nan" →
      strategy ≠ "abs" →
      ((st.df.getCol column).map (fun x => optLtQ x 0)).count true ≠ 0 →
      clean_negative_values st [column] strategy =
        Except.error ("Unknown strategy " ++ strategy)) ∧
    (st.df.hasCol column = true →
      ((st.df.getCol column).map (fun x => optLtQ x 0)).count true = 0 →
      clean_negative_values st [column] strategy =
        Except.ok ⟨st.df, st.cleaning_log ++ [column ++ ": No negative values"]⟩) := by
  refine ⟨fun h1 h2 => ?_, fun hcol => ⟨?_, ?_, ?_, ?_, ?_⟩, fun hcol s1 s2 s3 s4 => ⟨fun hc => ?_, fun hc => ?_⟩, fun hcol s1 s2 s3 s4 s5 s6 s7 hc => ?_, fun hcol s1 s2 s3 hc => ?_, fun hcol hz => ?_⟩
  · simp [handle_outliers, h1, h2]
  · simp [detect_outliers_zscore, hcol]
  · simp [detect_outliers_iqr, hcol]
  · simp [handle_outliers, detect_outliers_zscore, hcol]
  · simp [handle_outliers, detect_outliers_iqr, hcol]
  · simp [handle_missing_values, hcol]
  · simp [handle_outliers, detect_outliers_zscore, hcol, hc, s1, s2, s3, s4]
  · simp [handle_outliers, detect_outliers_iqr, hcol, hc, s1, s2, s3, s4]
  · simp [handle_missing_values, hcol, hc, s1, s2, s3, s4, s5, s6, s7]
  · simp [clean_negative_values, cleanNegLoop, cleanNegStep, hcol, hc, s1, s2, s3]
  · simp [clean_negative_values, cleanNegLoop, cleanNegStep, hcol, hz]

unseal Rat.add Rat.mul Rat.inv Rat.sub in
/-- Witness for C3 at concrete inputs: an unknown method raises; a missing
column raises; the unknown strategy `boguss` raises exactly where a nonzero
count reaches the strategy dispatch. -/
theorem c3_witness :
    handle_outliers (fun _ => 1) stW "GHI" "bogusm" 3 "nan" =
      Except.error "Unknown method bogusm. Use zscore or iqr" ∧
    detect_outliers_zscore (fun _ => 1) stW "Tamb" 3 =
      Except.error "Column Tamb not found in DataFrame" ∧
    handle_outliers (fun _ => 1) stW "GHI" "zscore" 3 "boguss" =
      Except.error "Unknown strategy boguss" ∧
    handle_outliers (fun _ => 1) stW "GHI" "iqr" (3/2) "boguss" =
      Except.error "Unknown strategy boguss" ∧
    handle_missing_values stW "RH" "boguss" =
      Except.error "Unknown strategy boguss" ∧
    clean_negative_values stW ["GHI"] "boguss" =
      Except.error "Unknown strategy boguss" :=
  ⟨(c3_usage_errors_amended (fun _ => 1) stW "GHI" "bogusm" "nan" 3).1
      (by decide) (by decide),
   ((c3_usage_errors_amended (fun _ => 1) stW "Tamb" "zscore" "nan" 3).2.1
      (by decide)).1,
   ((c3_usage_errors_amended (fun _ => 1) stW "GHI" "zscore" "boguss" 3).2.2.1
      (by decide) (by decide) (by decide) (by decide) (by decide)).1 (by decide),
   ((c3_usage_errors_amended (fun _ => 1) stW "GHI" "iqr" "boguss" (3/2)).2.2.1
      (by decide) (by decide) (by decide) (by decide) (by decide)).2 (by decide),
   (c3_usage_errors_amended (fun _ => 1) stW "RH" "x" "boguss" 3).2.2.2.1
      (by decide) (by decide) (by decide) (by decide) (by decide) (by decide)
      (by decide) (by decide) (by decide),
   (c3_usage_errors_amended (fun _ => 1) stW "GHI" "x" "boguss" 3).2.2.2.2.1
      (by decide) (by decide) (by decide) (by decide) (by decide)⟩

/-- The matrix entry relation is symmetric by construction: the diagonal is
fixed, and an `i > j` entry copies the computed `(j, i)` entry. -/
theorem corrEntry_symm (f : List ℚ → List ℚ → Val × Val)
    (colsData : List (List Val)) (i j : ℕ) :
    corrEntry f colsData i j = corrEntry f colsData j i := by
  unfold corrEntry
  rcases lt_trichotomy i j with h | h | h
  · rw [if_neg (by omega), if_neg (by omega), if_neg (by omega), if_pos h]
  · rw [h]
  · rw [if_neg (by omega), if_pos h, if_neg (by omega), if_neg (by omega)]

/-- Indexing a materialized `range`-indexed row or matrix. -/
theorem rangeMap_getD {β : Type} (n : ℕ) (g : ℕ → β) (d : β) (i : ℕ) (h : i < n) :
    ((List.range n).map g).getD i d = g i := by
  rw [List.getD_eq_getElem?_getD, List.getElem?_map, List.getElem?_range h]
  rfl

/-- Entry `(a, b)` of a materialized square matrix. -/
theorem rangeMatrix_entry (g : ℕ → ℕ → Val) (n a b : ℕ) (ha : a < n) (hb : b < n) :
    (((List.range n).map (fun i => (List.range n).map (fun j => g i j))).getD a []).getD
        b none = g a b := by
  rw [rangeMap_getD n _ _ a ha, rangeMap_getD n _ _ b hb]

/-- Summing a pointwise sum splits. -/
theorem sum_map_add (l : List ℕ) (f g : ℕ → ℕ) :
    (l.map (fun i => f i + g i)).sum = (l.map f).sum + (l.map g).sum := by
  induction l with
  | nil => rfl
  | cons x xs ih =>
    simp only [List.map_cons, List.sum_cons, ih]
    omega

/-- Summing an indicator counts the satisfying elements. -/
theorem sum_indicator_eq_countP (l : List ℕ) (p : ℕ → Bool) :
    (l.map (fun i => if p i then 1 else 0)).sum = l.countP p := by
  induction l with
  | nil => rfl
  | cons x xs ih =>
    by_cases h : p x
    all_goals simp [List.countP_cons, h, ih]
    all_goals omega

/-- Cell count of a Boolean square matrix that is symmetric with an
all-true diagonal: every cell equals twice the strict-upper-triangle count
plus the diagonal. -/
theorem countSquare_eq (n : ℕ) (f : ℕ → ℕ → Bool)
    (hsymm : ∀ i j, f i j = f j i) (hdiag : ∀ i, f i i = true) :
    ((List.range n).map (fun i => (List.range n).countP (fun j => f i j))).sum =
      2 * ((List.range n).map (fun j => (List.range j).countP (fun i => f i j))).sum + n := by
  induction n with
  | zero => rfl
  | succ m ih =>
    have hS : (List.range m).countP (fun j => f m j) =
        (List.range m).countP (fun i => f i m) :=
      List.countP_congr (fun a _ => by rw [hsymm])
    have hR : ((List.range (m+1)).map (fun j =>
        (List.range j).countP (fun i => f i j))).sum =
        ((List.range m).map (fun j => (List.range j).countP (fun i => f i j))).sum +
          (List.range m).countP (fun i => f i m) := by
      rw [List.range_succ, List.map_append, List.sum_append]
      simp
    rw [hR, List.range_succ, List.map_append, List.sum_append]
    simp only [List.countP_append, List.countP_cons, List.countP_nil, Nat.zero_add,
      List.map_cons, List.map_nil, List.sum_cons, List.sum_nil]
    rw [sum_map_add, sum_indicator_eq_countP, hS, hdiag m]
    simp only [if_true]
    omega

/-- C6: for every table, column selection and statistic function (each
documented correlation method resolves to one), both matrices returned by
`correlation_analysis` are symmetric — entry `(i, j)` equals entry `(j, i)`
for all in-range `i`, `j` — and every diagonal entry is exactly 1.0 in the
correlation matrix and exactly 0.0 in the p-value matrix. -/
theorem c6_correlation_symmetry_diagonal
    (corrFn : List ℚ → List ℚ → Val × Val) (alpha : ℚ) (method : String)
    (df : DF) (columns : List String) (i j : ℕ)
    (hi : i < columns.length) (hj : j < columns.length) :
    (((correlation_analysis corrFn alpha method (selectCols df columns)).correlation.getD
        i []).getD j none =
      ((correlation_analysis corrFn alpha method (selectCols df columns)).correlation.getD
        j []).getD i none) ∧
    (((correlation_analysis corrFn alpha method (selectCols df columns)).p_values.getD
        i []).getD j none =
      ((correlation_analysis corrFn alpha method (selectCols df columns)).p_values.getD
        j []).getD i none) ∧
    ((correlation_analysis corrFn alpha method (selectCols df columns)).correlation.getD
        i []).getD i none = some 1 ∧
    ((correlation_analysis corrFn alpha method (selectCols df columns)).p_values.getD
        i []).getD i none = some 0 := by
  have hn : (selectCols df columns).length = columns.length := by
    simp [selectCols]
  have hi2 : i < (selectCols df columns).length := by rw [hn]; exact hi
  have hj2 : j < (selectCols df columns).length := by rw [hn]; exact hj
  have hc : (correlation_analysis corrFn alpha method (selectCols df columns)).correlation =
      (List.range (selectCols df columns).length).map (fun a =>
        (List.range (selectCols df columns).length).map (fun b =>
          (corrEntry corrFn (selectCols df columns) a b).1)) := rfl
  have hp : (correlation_analysis corrFn alpha method (selectCols df columns)).p_values =
      (List.range (selectCols df columns).length).map (fun a =>
        (List.range (selectCols df columns).length).map (fun b =>
          (corrEntry corrFn (selectCols df columns) a b).2)) := rfl
  refine ⟨?_, ?_, ?_, ?_⟩
  · rw [hc, rangeMatrix_entry _ _ _ _ hi2 hj2, rangeMatrix_entry _ _ _ _ hj2 hi2,
      corrEntry_symm]
  · rw [hp, rangeMatrix_entry _ _ _ _ hi2 hj2, rangeMatrix_entry _ _ _ _ hj2 hi2,
      corrEntry_symm]
  · rw [hc, rangeMatrix_entry _ _ _ _ hi2 hi2]
    simp [corrEntry]
  · rw [hp, rangeMatrix_entry _ _ _ _ hi2 hi2]
    simp [corrEntry]

/-- Witness for C6 on a concrete two-column selection. -/
theorem c6_witness :
    (((correlation_analysis (fun _ _ => (none, none)) (1/20) "pearson"
        (selectCols dfAB ["A", "B"])).correlation.getD 0 []).getD 1 none =
      ((correlation_analysis (fun _ _ => (none, none)) (1/20) "pearson"
        (selectCols dfAB ["A", "B"])).correlation.getD 1 []).getD 0 none) ∧
    (((correlation_analysis (fun _ _ => (none, none)) (1/20) "pearson"
        (selectCols dfAB ["A", "B"])).p_values.getD 0 []).getD 1 none =
      ((correlation_analysis (fun _ _ => (none, none)) (1/20) "pearson"
        (selectCols dfAB ["A", "B"])).p_values.getD 1 []).getD 0 none) ∧
    ((correlation_analysis (fun _ _ => (none, none)) (1/20) "pearson"
        (selectCols dfAB ["A", "B"])).correlation.getD 0 []).getD 0 none = some 1 ∧
    ((correlation_analysis (fun _ _ => (none, none)) (1/20) "pearson"
        (selectCols dfAB ["A", "B"])).p_values.getD 0 []).getD 0 none = some 0 :=
  c6_correlation_symmetry_diagonal (fun _ _ => (none, none)) (1/20) "pearson"
    dfAB ["A", "B"] 0 1 (by decide) (by decide)

unseal Rat.add Rat.mul Rat.inv Rat.sub in
/-- C2 counterexample: the claim says `significant_at_alpha` equals the
number of unordered off-diagonal pairs with p-value below alpha. On two
columns with only two rows each (every off-diagonal pair has fewer than 3
valid points, hence NaN p-values), that number is 0, yet the code returns
`(p_df < alpha).sum().sum() // 2 = 1`, because the two diagonal p-values of
exactly 0.0 are also below alpha and are counted before the halving. -/
theorem c2_counterexample :
    (correlation_analysis (fun _ _ => (none, none)) (1/20) "pearson"
      (selectCols dfAB ["A", "B"])).significant_at_alpha = 1 ∧
    specSignificantPairs (fun _ _ => (none, none)) (1/20)
      (selectCols dfAB ["A", "B"]) = 0 ∧
    (1 : ℕ) ≠ 0 := by
  refine ⟨by decide, by decide, by decide⟩

/-- C2 (amended): for a positive alpha, `significant_at_alpha` equals the
number of significant unordered off-diagonal pairs plus ⌊n/2⌋ where n is the
number of analyzed columns: the n diagonal p-values of exactly 0.0 each
count as `p < alpha` before the integer halving. -/
theorem c2_significant_count_amended
    (corrFn : List ℚ → List ℚ → Val × Val) (method : String) (df : DF)
    (columns : List String) (alpha : ℚ) (halpha : 0 < alpha) :
    (correlation_analysis corrFn alpha method (selectCols df columns)).significant_at_alpha =
      specSignificantPairs corrFn alpha (selectCols df columns) + columns.length / 2 := by
  have hn : (selectCols df columns).length = columns.length := by
    simp [selectCols]
  have hkey : ((List.range (selectCols df columns).length).map (fun i =>
      (List.range (selectCols df columns).length).countP (fun j =>
        pSig (corrEntry corrFn (selectCols df columns) i j).2 alpha))).sum =
      2 * ((List.range (selectCols df columns).length).map (fun j =>
        (List.range j).countP (fun i =>
          pSig (corrEntry corrFn (selectCols df columns) i j).2 alpha))).sum +
        (selectCols df columns).length :=
    countSquare_eq (selectCols df columns).length
      (fun i j => pSig (corrEntry corrFn (selectCols df columns) i j).2 alpha)
      (fun i j => by
        show pSig (corrEntry corrFn (selectCols df columns) i j).2 alpha =
          pSig (corrEntry corrFn (selectCols df columns) j i).2 alpha
        rw [corrEntry_symm])
      (fun i => by
        show pSig (corrEntry corrFn (selectCols df columns) i i).2 alpha = true
        simp [corrEntry, pSig, halpha])
  have hsig : (correlation_analysis corrFn alpha method (selectCols df columns)).significant_at_alpha =
      ((List.range (selectCols df columns).length).map (fun i =>
        (List.range (selectCols df columns).length).countP (fun j =>
          pSig (corrEntry corrFn (selectCols df columns) i j).2 alpha))).sum / 2 := by
    show ((((List.range (selectCols df columns).length).map (fun a =>
        (List.range (selectCols df columns).length).map (fun b =>
          (corrEntry corrFn (selectCols df columns) a b).2))).map
            (fun row => row.countP (fun p => pSig p alpha))).sum) / 2 = _
    rw [List.map_map]
    congr 2
    apply List.map_congr_left
    intro a _
    rw [Function.comp_apply, List.countP_map]
    rfl
  rw [hsig, hkey]
  have hspec : specSignificantPairs corrFn alpha (selectCols df columns) =
      ((List.range (selectCols df columns).length).map (fun j =>
        (List.range j).countP (fun i =>
          pSig (corrEntry corrFn (selectCols df columns) i j).2 alpha))).sum := rfl
  rw [hspec, ← hn]
  omega

unseal Rat.add Rat.mul Rat.inv Rat.sub in
/-- Witness for C2 (amended) at the concrete two-column selection: the code
count 1 equals the spec count 0 plus ⌊2/2⌋. -/
theorem c2_witness :
    (correlation_analysis (fun _ _ => (none, none)) (1/20) "pearson"
      (selectCols dfAB ["A", "B"])).significant_at_alpha =
      specSignificantPairs (fun _ _ => (none, none)) (1/20)
        (selectCols dfAB ["A", "B"]) + (["A", "B"] : List String).length / 2 :=
  c2_significant_count_amended (fun _ _ => (none, none)) "pearson" dfAB
    ["A", "B"] (1/20) (by norm_num)

/-- One cleaning call writes only at the instance's reference or at freshly
allocated slots, so every slot below a bound under both the reference and
the store size is untouched, and the invariant is maintained. -/
theorem runCleanOp_preserves (sq : ℚ → ℚ) (op : CleanOp) (sc : Store × CleanerRef)
    (n : ℕ) (h1 : n ≤ sc.2.dfRef) (h2 : n ≤ sc.1.objs.length) :
    (∀ i, i < n → (runCleanOp sq sc op).1.objs[i]? = sc.1.objs[i]?) ∧
    n ≤ (runCleanOp sq sc op).2.dfRef ∧
    n ≤ (runCleanOp sq sc op).1.objs.length := by
  unfold runCleanOp
  by_cases hr : opRebinds op = true
  · simp only [hr, if_true]
    refine ⟨fun i hi => ?_, h2, by simp; omega⟩
    exact List.getElem?_append_left (lt_of_lt_of_le hi h2)
  · simp only [hr, if_false]
    refine ⟨fun i hi => ?_, h1, by simpa using h2⟩
    exact List.getElem?_set_ne (by omega)

/-- A whole pipeline never writes below the invariant bound. -/
theorem runCleanOps_preserves (sq : ℚ → ℚ) (ops : List CleanOp)
    (sc : Store × CleanerRef) (n : ℕ)
    (h1 : n ≤ sc.2.dfRef) (h2 : n ≤ sc.1.objs.length) :
    (∀ i, i < n → (runCleanOps sq sc ops).1.objs[i]? = sc.1.objs[i]?) ∧
    n ≤ (runCleanOps sq sc ops).2.dfRef ∧
    n ≤ (runCleanOps sq sc ops).1.objs.length := by
  induction ops generalizing sc with
  | nil => exact ⟨fun i _ => rfl, h1, h2⟩
  | cons op rest ih =>
    have hstep := runCleanOp_preserves sq op sc n h1 h2
    have hrest := ih (runCleanOp sq sc op) hstep.2.1 hstep.2.2
    have hfold : runCleanOps sq sc (op :: rest) =
        runCleanOps sq (runCleanOp sq sc op) rest := rfl
    refine ⟨fun i hi => ?_, by rw [hfold]; exact hrest.2.1, by rw [hfold]; exact hrest.2.2⟩
    rw [hfold, hrest.1 i hi, hstep.1 i hi]

/-- C9: the caller's DataFrame object is never modified by a `DataCleaner`:
`__init__` copies the table into a freshly allocated object, and every
subsequent sequence of cleaning calls (`handle_outliers`,
`handle_missing_values`, `clean_negative_values`, `remove_duplicates`)
either writes through that private object or rebinds to fresh allocations,
so the caller's slot still holds the original table afterwards. -/
theorem c9_cleaner_never_mutates_caller
    (sq : ℚ → ℚ) (s : Store) (callerRef : ℕ) (ops : List CleanOp)
    (href : callerRef < s.objs.length) :
    (runCleanOps sq (cleanerInit s callerRef) ops).1.objs[callerRef]? =
      s.objs[callerRef]? := by
  have h := runCleanOps_preserves sq ops (cleanerInit s callerRef) s.objs.length
    le_rfl (by simp [cleanerInit])
  rw [h.1 callerRef href]
  show ((s.objs ++ [s.objs.getD callerRef ⟨[]⟩])[callerRef]?) = s.objs[callerRef]?
  exact List.getElem?_append_left href

/-- Witness for C9: one caller table, one cleaning pipeline call; the
caller's slot is unchanged. -/
theorem c9_witness :
    (runCleanOps (fun q => q) (cleanerInit ⟨[dfScenario]⟩ 0)
      [CleanOp.cNeg ["GHI"] "zero"]).1.objs[0]? =
      (⟨[dfScenario]⟩ : Store).objs[0]? :=
  c9_cleaner_never_mutates_caller (fun q => q) ⟨[dfScenario]⟩ 0
    [CleanOp.cNeg ["GHI"] "zero"] (by decide)

/-- Division by a NaN scalar is NaN. -/
theorem optDiv_none_right (x : Val) : optDiv x none = none := by
  cases x <;> rfl

/-- The Z-score mask has the length of its input column. -/
theorem zscoreMask_length (sq : ℚ → ℚ) (data : List Val) (t : ℚ) :
    (zscoreMask sq data t).length = data.length := by
  simp only [zscoreMask]
  split
  · simp
  · split <;> simp

/-- With at most one finite value (NaN standard deviation) or a zero sample
variance, the Z-score mask is all False. -/
theorem zscoreMask_allFalse (sq : ℚ → ℚ) (data : List Val) (t : ℚ)
    (hsq : sq 0 = 0)
    (h : (dropNone data).length ≤ 1 ∨ sampleVar (dropNone data) = some 0) :
    zscoreMask sq data t = data.map (fun _ => false) := by
  simp only [zscoreMask]
  by_cases h0 : (dropNone data).length = 0
  · simp [h0]
  · rw [if_neg h0]
    rcases h with h1 | h2
    · have hv : sampleVar (dropNone data) = none := by
        unfold sampleVar
        rw [if_pos (by omega)]
      rw [hv]
      rw [if_neg (by simp)]
      apply List.map_congr_left
      intro x hx
      rw [Option.map_none', optDiv_none_right]
      rfl
    · rw [h2]
      simp [hsq]

/-- C7: with the named column present, `detect_outliers_zscore` and
`detect_outliers_iqr` both succeed with a Boolean mask of exactly the same
length and positional alignment as the input column (the masks are built
entrywise over the column in order); and when the column's non-missing
values have zero sample standard deviation — or at most one finite value
remains, where pandas ddof=1 std is NaN — or the column is entirely missing,
the Z-score mask is all False rather than an error. -/
theorem c7_outlier_mask_shapes
    (sq : ℚ → ℚ) (st : DataCleaner) (column : String) (threshold multiplier : ℚ)
    (hcol : st.df.hasCol column = true) :
    detect_outliers_zscore sq st column threshold =
        Except.ok (zscoreMask sq (st.df.getCol column) threshold) ∧
    (zscoreMask sq (st.df.getCol column) threshold).length =
        (st.df.getCol column).length ∧
    detect_outliers_iqr st column multiplier =
        Except.ok (iqrMask (st.df.getCol column) multiplier) ∧
    (iqrMask (st.df.getCol column) multiplier).length =
        (st.df.getCol column).length ∧
    (sq 0 = 0 →
      (dropNone (st.df.getCol column)).length ≤ 1 ∨
        sampleVar (dropNone (st.df.getCol column)) = some 0 →
      zscoreMask sq (st.df.getCol column) threshold =
        (st.df.getCol column).map (fun _ => false)) := by
  refine ⟨?_, zscoreMask_length sq _ threshold, ?_, ?_, fun hsq h => zscoreMask_allFalse sq _ threshold hsq h⟩
  · simp [detect_outliers_zscore, hcol]
  · simp [detect_outliers_iqr, hcol]
  · simp [iqrMask]

unseal Rat.add Rat.mul Rat.inv Rat.sub in
/-- Witness for C7 on a constant two-entry column: both masks have length 2
and the zero-variance Z-score mask is all False. -/
theorem c7_witness :
    (zscoreMask (fun q => q) (stConst.df.getCol "GHI") 3).length = 2 ∧
    (iqrMask (stConst.df.getCol "GHI") (3/2)).length = 2 ∧
    zscoreMask (fun q => q) (stConst.df.getCol "GHI") 3 = [false, false] := by
  have h := c7_outlier_mask_shapes (fun q => q) stConst "GHI" 3 (3/2) (by decide)
  refine ⟨by rw [h.2.1]; decide, by rw [h.2.2.2.1]; decide, ?_⟩
  rw [h.2.2.2.2 rfl (Or.inr (by decide))]
  decide

/-- Replacing under the mask a column computes from itself is a pointwise
conditional rewrite. -/
theorem setWhere_selfMask (col : List Val) (f : Val → Bool) (v : Val) :
    setWhere col (col.map f) v = col.map (fun x => if f x then v else x) := by
  induction col with
  | nil => rfl
  | cons x xs ih => simpa [setWhere] using ih

/-- Reading back the column just assigned. -/
theorem getCol_setCol_self (df : DF) (c : String) (vs : List Val)
    (h : df.hasCol c = true) : (df.setCol c vs).getCol c = vs := by
  obtain ⟨cols⟩ := df
  induction cols with
  | nil => simp [DF.hasCol] at h
  | cons p ps ih =>
    by_cases hp : p.1 = c
    · simp [DF.setCol, DF.getCol, List.find?_cons, hp]
    · have h2 : DF.hasCol ⟨ps⟩ c = true := by
        simpa [DF.hasCol, hp] using h
      simpa [DF.setCol, DF.getCol, List.find?_cons, hp] using ih h2

/-- A column assignment only changes the payload of pairs named `c`, so a
lookup for a different name is untouched. -/
theorem find?_setCol_other (cols : List (String × List Val)) (c c2 : String)
    (vs : List Val) (h : c2 ≠ c) :
    List.find? (fun p => p.1 = c2)
        (cols.map (fun p => if p.1 = c then (p.1, vs) else p)) =
      List.find? (fun p => p.1 = c2) cols := by
  induction cols with
  | nil => rfl
  | cons p ps ih =>
    obtain ⟨nm, vals⟩ := p
    by_cases hp : nm = c
    · have h2 : ¬(c = c2) := fun hh => h hh.symm
      simp [List.find?_cons, hp, h2, ih]
    · by_cases hq : nm = c2
      · simp [List.find?_cons, hp, hq, h]
      · simp [List.find?_cons, hp, hq, ih]

/-- Assigning one column leaves every other column unchanged. -/
theorem getCol_setCol_other (df : DF) (c c2 : String) (vs : List Val)
    (h : c2 ≠ c) : (df.setCol c vs).getCol c2 = df.getCol c2 := by
  obtain ⟨cols⟩ := df
  simp only [DF.setCol, DF.getCol]
  rw [find?_setCol_other cols c c2 vs h]

/-- Assigning a column of the same length as the one it replaces preserves
the row count. -/
theorem nrows_setCol (df : DF) (c : String) (vs : List Val)
    (hlen : vs.length = (df.getCol c).length) : (df.setCol c vs).nrows = df.nrows := by
  obtain ⟨cols⟩ := df
  cases cols with
  | nil => rfl
  | cons p ps =>
    by_cases hp : p.1 = c
    · have : DF.getCol ⟨p :: ps⟩ c = p.2 := by
        simp [DF.getCol, List.find?_cons, hp]
      rw [this] at hlen
      simp [DF.setCol, DF.nrows, hp, hlen]
    · simp [DF.setCol, DF.nrows, hp]

unseal Rat.add Rat.mul Rat.inv Rat.sub in
/-- C4 (amended): for every present column, `clean_negative_values` with
strategy `zero` zeroes exactly the originally-negative entries, leaves every
other entry, every other column and the row count unchanged, and the result
column has no value strictly below 0; the appended log entry is
`<column>: Cleaned <n> negative values using zero` when the original
negative count `n` is nonzero and `<column>: No negative values` when it is
zero. The spec scenario on GHI `[100, -5, 50]` yields `[100, 0, 50]` with
log entry `GHI: Cleaned 1 negative values using zero`. -/
theorem c4_clean_negative_zero_amended :
    (∀ (st : DataCleaner) (column : String), st.df.hasCol column = true →
      ∃ st2, clean_negative_values st [column] "zero" = Except.ok st2 ∧
        st2.df.getCol column =
          (st.df.getCol column).map (fun x => if optLtQ x 0 then some 0 else x) ∧
        (∀ v ∈ st2.df.getCol column, optLtQ v 0 = false) ∧
        (∀ c2, c2 ≠ column → st2.df.getCol c2 = st.df.getCol c2) ∧
        st2.df.nrows = st.df.nrows ∧
        st2.cleaning_log = st.cleaning_log ++
          [if ((st.df.getCol column).map (fun x => optLtQ x 0)).count true = 0
           then column ++ ": No negative values"
           else column ++ ": Cleaned " ++
             toString (((st.df.getCol column).map (fun x => optLtQ x 0)).count true) ++
             " negative values using zero"]) ∧
    clean_negative_values ⟨dfScenario, []⟩ ["GHI"] "zero" =
      Except.ok ⟨⟨[("t", [some 0, some 1, some 2]), ("GHI", [some 100, some 0, some 50])]⟩,
        ["GHI: Cleaned 1 negative values using zero"]⟩ := by
  constructor
  · intro st column hcol
    by_cases hzero :
        ((st.df.getCol column).map (fun x => optLtQ x 0)).count true = 0
    · refine ⟨⟨st.df, st.cleaning_log ++ [column ++ ": No negative values"]⟩, ?_, ?_, ?_, ?_, ?_, ?_⟩
      · simp [clean_negative_values, cleanNegLoop, cleanNegStep, hcol, hzero]
      · have hall : ∀ x ∈ st.df.getCol column, optLtQ x 0 = false := by
          intro x hx
          have : true ∉ (st.df.getCol column).map (fun x => optLtQ x 0) :=
            List.count_eq_zero.mp hzero
          by_contra hc
          exact this (List.mem_map.mpr ⟨x, hx, by simpa using hc⟩)
        calc st.df.getCol column
            = (st.df.getCol column).map (fun x => x) := by simp
          _ = (st.df.getCol column).map (fun x => if optLtQ x 0 then some 0 else x) := by
              apply List.map_congr_left
              intro x hx
              simp [hall x hx]
      · intro v hv
        have : true ∉ (st.df.getCol column).map (fun x => optLtQ x 0) :=
          List.count_eq_zero.mp hzero
        by_contra hc
        exact this (List.mem_map.mpr ⟨v, hv, by simpa using hc⟩)
      · intro c2 _; rfl
      · rfl
      · simp [hzero]
    · refine ⟨⟨st.df.setCol column
          (setWhere (st.df.getCol column)
            ((st.df.getCol column).map (fun x => optLtQ x 0)) (some 0)),
          st.cleaning_log ++
            [column ++ ": Cleaned " ++
              toString (((st.df.getCol column).map (fun x => optLtQ x 0)).count true) ++
              " negative values using zero"]⟩, ?_, ?_, ?_, ?_, ?_, ?_⟩
      · simp [clean_negative_values, cleanNegLoop, cleanNegStep, hcol, hzero,
          String.append_assoc]
      · rw [getCol_setCol_self _ _ _ hcol, setWhere_selfMask]
      · intro v hv
        rw [getCol_setCol_self _ _ _ hcol, setWhere_selfMask] at hv
        obtain ⟨x, _, hfx⟩ := List.mem_map.mp hv
        by_cases hneg : optLtQ x 0 = true
        · rw [if_pos hneg] at hfx
          rw [← hfx]; rfl
        · rw [if_neg hneg] at hfx
          rw [← hfx]; simpa using hneg
      · intro c2 hc2
        exact getCol_setCol_other _ _ _ _ hc2
      · apply nrows_setCol
        rw [setWhere_selfMask]
        simp
      · simp [hzero]
  · decide

unseal Rat.add Rat.mul Rat.inv Rat.sub in
/-- Witness for C4 at the spec scenario table. -/
theorem c4_witness :
    ∃ st2, clean_negative_values ⟨dfScenario, []⟩ ["GHI"] "zero" = Except.ok st2 ∧
      st2.df.getCol "GHI" =
        (dfScenario.getCol "GHI").map (fun x => if optLtQ x 0 then some 0 else x) ∧
      (∀ v ∈ st2.df.getCol "GHI", optLtQ v 0 = false) ∧
      (∀ c2, c2 ≠ "GHI" → st2.df.getCol c2 = dfScenario.getCol c2) ∧
      st2.df.nrows = dfScenario.nrows ∧
      st2.cleaning_log = [] ++
        [if ((dfScenario.getCol "GHI").map (fun x => optLtQ x 0)).count true = 0
         then "GHI" ++ ": No negative values"
         else "GHI" ++ ": Cleaned " ++
           toString (((dfScenario.getCol "GHI").map (fun x => optLtQ x 0)).count true) ++
           " negative values using zero"] :=
  c4_clean_negative_zero_amended.1 ⟨dfScenario, []⟩ "GHI" (by decide)

/-- Membership in an ascending insertion. -/
theorem mem_insertLe {α : Type} [LinearOrder α] (x a : α) (l : List α) :
    a ∈ insertLe x l ↔ a = x ∨ a ∈ l := by
  induction l with
  | nil => simp [insertLe]
  | cons y ys ih =>
    simp only [insertLe]
    split
    · simp [List.mem_cons]
    · simp only [List.mem_cons, ih]
      tauto

/-- Sorting preserves membership. -/
theorem mem_sortLe {α : Type} [LinearOrder α] (a : α) (l : List α) :
    a ∈ sortLe l ↔ a ∈ l := by
  induction l with
  | nil => simp [sortLe]
  | cons y ys ih =>
    have : sortLe (y :: ys) = insertLe y (sortLe ys) := rfl
    rw [this, mem_insertLe, ih]
    simp [List.mem_cons]

/-- The grouping machinery's per-day NaN-skipping sum agrees with the
spec-worded per-day sum in which a NaN sample contributes zero. -/
theorem daySum_eq (rows : List (ℚ × Val)) (d : ℤ) :
    (dropNone ((rows.filter (fun r => dateOf r.1 = d)).map (fun r => r.2))).sum =
      daySum rows d := by
  induction rows with
  | nil => rfl
  | cons r rs ih =>
    by_cases hd : dateOf r.1 = d
    · cases hv : r.2 with
      | none => simp [List.filter_cons, hd, dropNone, hv, daySum, ← ih]
      | some v => simp [List.filter_cons, hd, dropNone, hv, daySum, ← ih]
    · simp [List.filter_cons, hd, daySum, ih]

set_option maxRecDepth 8000 in
unseal Rat.add Rat.mul Rat.inv Rat.sub in
/-- C5: every entry of `calculate_daily_energy` carries (sum of that day's
irradiance samples) × interval-in-hours / 1000, with the single interval
`dailyInterval` (the median consecutive timestamp delta over the whole
table, in hours) applied uniformly to every day; the output has one entry
per calendar date occurring in the table; a one-row table uses the 1/60-hour
fallback interval; and on one day of 60 one-minute samples all equal to
600 W/m² the result is exactly 0.6 kWh/m² for that day. -/
theorem c5_daily_energy :
    (∀ (rows : List (ℚ × Val)) (d : ℤ) (e : ℚ), (d, e) ∈ calculate_daily_energy rows →
      e = daySum rows d * dailyInterval rows / 1000) ∧
    (∀ (rows : List (ℚ × Val)) (d : ℤ),
      (∃ e, (d, e) ∈ calculate_daily_energy rows) ↔ ∃ r ∈ rows, dateOf r.1 = d) ∧
    (∀ (t : ℚ) (v : Val), dailyInterval [(t, v)] = 1/60) ∧
    calculate_daily_energy minuteRows = [((0 : ℤ), (3/5 : ℚ))] := by
  refine ⟨?_, ?_, ?_, ?_⟩
  · intro rows d e hmem
    unfold calculate_daily_energy at hmem
    obtain ⟨d2, _, heq⟩ := List.mem_map.mp hmem
    obtain ⟨h1, h2⟩ := Prod.mk.injEq .. |>.mp heq
    rw [← h2, ← h1, daySum_eq]
  · intro rows d
    constructor
    · rintro ⟨e, he⟩
      unfold calculate_daily_energy at he
      obtain ⟨d2, hd2, heq⟩ := List.mem_map.mp he
      have hdd : d2 = d := ((Prod.mk.injEq ..).mp heq).1
      rw [hdd] at hd2
      unfold groupDates at hd2
      rw [mem_sortLe, List.mem_dedup] at hd2
      obtain ⟨r, hr, hdr⟩ := List.mem_map.mp hd2
      exact ⟨r, hr, hdr⟩
    · rintro ⟨r, hr, hdr⟩
      refine ⟨(dropNone ((rows.filter (fun rr => dateOf rr.1 = d)).map (fun rr => rr.2))).sum *
        dailyInterval rows / 1000, ?_⟩
      unfold calculate_daily_energy
      apply List.mem_map.mpr
      refine ⟨d, ?_, rfl⟩
      unfold groupDates
      rw [mem_sortLe, List.mem_dedup]
      exact List.mem_map.mpr ⟨r, hr, hdr⟩
  · intro t v; rfl
  · decide

set_option maxRecDepth 8000 in
unseal Rat.add Rat.mul Rat.inv Rat.sub in
/-- Witness for C5: the scenario day's 0.6 kWh/m² value decomposes as the
day sum times the uniform interval over 1000. -/
theorem c5_witness :
    (3/5 : ℚ) = daySum minuteRows 0 * dailyInterval minuteRows / 1000 :=
  c5_daily_energy.1 minuteRows 0 (3/5)
    (by rw [c5_daily_energy.2.2.2]; exact List.mem_singleton.mpr rfl)

/-- Witness for C8 at concrete inputs: a table with no cleaning events, and
a table whose single event sits at row 0 (empty before-window). -/
theorem c8_witness :
    calculate_cleaning_impact dfNoEvents "Cleaning" "ModA" 7 =
      ImpactResult.err "No cleaning events found" ∧
    calculate_cleaning_impact dfOneEvent "Cleaning" "ModA" 7 =
      ImpactResult.err "Insufficient data around cleaning events" :=
  ⟨(c8_cleaning_impact_structured_errors dfNoEvents "Cleaning" "ModA" 7).1 (by decide),
   (c8_cleaning_impact_structured_errors dfOneEvent "Cleaning" "ModA" 7).2
     (by decide) (by decide)⟩

end Solar
